import Mathlib

/-!
Verification of the blog/CMS content layer of the `prabuddh-me` repository.

The development shallowly embeds the Python/Django/Wagtail code of
`src/blog/models.py`, `src/blog/views.py`,
`src/blog/management/commands/recalculate_reading_times.py`,
`src/core/models.py` and `src/home/models.py`:

* Python strings are Lean `String`s (the model is exact for ASCII data);
* Django querysets over `BlogPage` become lists of a `BlogPost` record,
  with `filter`/`exclude`/`distinct`/`order_by`/slicing translated to
  `List.filter`, `List.dedup`, `List.mergeSort` and `List.take`;
* the Django cache becomes an association list from string keys to values;
* machine integers are `Nat`/`Int` (no overflow is reachable here:
  Python integers are unbounded).
-/

set_option maxRecDepth 8192

namespace PrabuddhMe

/-! ### Python string primitives used by the source -/

/-- Words of a Python `str.split()` call with no separator: the number of
maximal runs of non-whitespace characters.  The boolean argument records
whether the previous character was inside a word. -/
def countWordsAux : List Char → Bool → Nat
  | [], _ => 0
  | c :: cs, inWord =>
    if c.isWhitespace then countWordsAux cs false
    else (if inWord then 0 else 1) + countWordsAux cs true

/-- Python `len(s.split())`: the number of whitespace-delimited words. -/
def countWords (s : String) : Nat :=
  countWordsAux s.data false

/-- Python `s.strip()`: remove leading and trailing whitespace. -/
def pyStrip (s : String) : String :=
  String.mk (((s.data.dropWhile Char.isWhitespace).reverse.dropWhile
    Char.isWhitespace).reverse)

/-- Python `s.lower()` (ASCII model). -/
def pyLower (s : String) : String :=
  String.mk (s.data.map Char.toLower)

/-- Python `s.title()` (ASCII model): the letter after a non-letter is
uppercased, every other letter is lowercased.  The boolean argument records
whether the previous character was a letter. -/
def pyTitleAux : List Char → Bool → List Char
  | [], _ => []
  | c :: cs, prevAlpha =>
    if c.isAlpha then
      (if prevAlpha then c.toLower else c.toUpper) :: pyTitleAux cs true
    else
      c :: pyTitleAux cs false

/-- Python `s.title()` (ASCII model). -/
def pyTitle (s : String) : String :=
  String.mk (pyTitleAux s.data false)

/-- Python `s.replace('-', ' ')`: the single-character case of `str.replace`. -/
def replaceDashes (s : String) : String :=
  String.mk (s.data.map fun c => if c = '-' then ' ' else c)

/-- Django `author__iexact`: case-insensitive string equality. -/
def iexact (a b : String) : Bool :=
  pyLower a == pyLower b

/-- Does `needle` occur at the start of `hay`? -/
def startsWithChars : List Char → List Char → Bool
  | [], _ => true
  | _ :: _, [] => false
  | c :: cs, d :: ds => c == d && startsWithChars cs ds

/-- Does `needle` occur contiguously anywhere in `hay`? -/
def containsChars : List Char → List Char → Bool
  | needle, [] => needle.isEmpty
  | needle, c :: rest =>
    startsWithChars needle (c :: rest) || containsChars needle rest

/-- Case-sensitive substring test (Python `needle in hay`). -/
def strContains (hay needle : String) : Bool :=
  containsChars needle.data hay.data

/-- Django `author__icontains`: case-insensitive substring test. -/
def icontains (hay needle : String) : Bool :=
  strContains (pyLower hay) (pyLower needle)

/-! ### The StreamField content model

In `BlogPage.save` (src/blog/models.py:302-314) and in the
`recalculate_reading_times` command, each body block's `value` is examined:
a value with a `source` attribute is a rich-text value whose `source` string
is counted whole; a dict-like `StructValue` contributes the words of each of
its `str`-typed fields (`isinstance(value, str)`), other field values are
ignored. -/

/-- A field value inside a `StructValue`: either a Python `str` or any
other object (rich text sub-values, images, booleans, numbers …). -/
inductive FieldValue where
  | str (s : String)
  | nonStr
  deriving DecidableEq, Repr

/-- One StreamField block value, as discriminated by `BlogPage.save`:
either a rich-text value carrying a `source` string, or a `StructValue`
with named fields. -/
inductive Block where
  | richText (source : String)
  | structBlock (fields : List (String × FieldValue))
  deriving DecidableEq, Repr

/-- Publication date of a post (`BlogPage.date`, a Django `DateField`). -/
structure PostDate where
  year : Nat
  month : Nat
  day : Nat
  deriving DecidableEq, Repr

/-- The fields of `BlogPage` (src/blog/models.py) that the verified
operations read or write. `live`/`isPublic` model Wagtail's
`.live().public()` queryset filters, `firstPublishedAt` the
`first_published_at` timestamp used by `order_by('-first_published_at')`. -/
structure BlogPost where
  id : Nat
  slug : String
  author : String
  date : PostDate
  intro : String
  body : List Block
  tags : List String
  featured : Bool
  live : Bool
  isPublic : Bool
  firstPublishedAt : Nat
  estimatedReadingTime : Nat
  deriving DecidableEq, Repr

/-! ### Reading time: `BlogPage.save` (src/blog/models.py:296-334) -/

/-- The word-count accumulation loop shared verbatim by `BlogPage.save`
(src/blog/models.py:304-314) and `Command.handle`
(recalculate_reading_times.py:38-48): start from the intro's words, then,
for each block, add the words of its rich-text `source` if it has one, else
the words of each `str`-typed field. -/
def saveWordCount (intro : String) (body : List Block) : Nat :=
  body.foldl
    (fun wc b =>
      match b with
      | Block.richText source => wc + countWords source
      | Block.structBlock fields =>
        fields.foldl
          (fun wc2 kv =>
            match kv.2 with
            | FieldValue.str v => wc2 + countWords v
            | FieldValue.nonStr => wc2)
          wc)
    (countWords intro)

/-- Reading time computed by `BlogPage.save` (src/blog/models.py:317):
`max(1, word_count // 200)`. -/
def saveReadingTime (intro : String) (body : List Block) : Nat :=
  max 1 (saveWordCount intro body / 200)

/-- The state change `BlogPage.save` applies to the post record itself. -/
def savePost (p : BlogPost) : BlogPost :=
  { p with estimatedReadingTime := saveReadingTime p.intro p.body }

/-! Specification-side word count, phrased as in the claim: intro words
plus, for each body block, the words of its rich-text source if it has
one, otherwise the words of every string-typed field of the block. -/

/-- Words contributed by a single block, per the specification. -/
def blockWords : Block → Nat
  | Block.richText source => countWords source
  | Block.structBlock fields =>
    (fields.map fun kv =>
      match kv.2 with
      | FieldValue.str v => countWords v
      | FieldValue.nonStr => 0).sum

/-- Total word count of a post, per the specification. -/
def totalWordCount (p : BlogPost) : Nat :=
  countWords p.intro + (p.body.map blockWords).sum

theorem fields_foldl_eq_sum (fields : List (String × FieldValue)) (a : Nat) :
    fields.foldl
      (fun wc2 kv =>
        match kv.2 with
        | FieldValue.str v => wc2 + countWords v
        | FieldValue.nonStr => wc2)
      a
      = a + (fields.map fun kv =>
          match kv.2 with
          | FieldValue.str v => countWords v
          | FieldValue.nonStr => 0).sum := by
  induction fields generalizing a with
  | nil => simp
  | cons kv rest ih =>
    cases h : kv.2 with
    | str v => simp [List.foldl_cons, h, ih, Nat.add_assoc]
    | nonStr => simp [List.foldl_cons, h, ih]

theorem body_foldl_eq_sum (body : List Block) (a : Nat) :
    body.foldl
      (fun wc b =>
        match b with
        | Block.richText source => wc + countWords source
        | Block.structBlock fields =>
          fields.foldl
            (fun wc2 kv =>
              match kv.2 with
              | FieldValue.str v => wc2 + countWords v
              | FieldValue.nonStr => wc2)
            wc)
      a
      = a + (body.map blockWords).sum := by
  induction body generalizing a with
  | nil => simp
  | cons b rest ih =>
    rw [List.foldl_cons, ih]
    cases b with
    | richText source => simp [blockWords, Nat.add_assoc]
    | structBlock fields => simp [blockWords, fields_foldl_eq_sum, Nat.add_assoc]

theorem saveWordCount_eq_totalWordCount (p : BlogPost) :
    saveWordCount p.intro p.body = totalWordCount p := by
  simp [saveWordCount, totalWordCount, body_foldl_eq_sum]

/-- C1: For every BlogPost, after `save()` completes, `estimated_reading_time`
equals `max(1, total_word_count // 200)`, where `total_word_count` is the
number of whitespace-delimited words in the intro plus, for each body block,
the words of its rich-text source if it has one, otherwise the words of
every string-typed field of the block. -/
theorem save_reading_time_correct (p : BlogPost) :
    (savePost p).estimatedReadingTime = max 1 (totalWordCount p / 200) := by
  simp [savePost, saveReadingTime, saveWordCount_eq_totalWordCount]

/-! ### Reading time: the `recalculate_reading_times` command
(src/blog/management/commands/recalculate_reading_times.py:34-62)

The command recomputes the word count with the same loop as `save`, but then
computes `max(1, round(word_count / 200))` — Python's `round`, which rounds
half to even — where `save` computes `max(1, word_count // 200)`. -/

/-- Python `round(w / 200)` for a non-negative integer `w`: round half to
even.  This is exact for the float expression in the source: a tie can only
occur at `w % 200 = 100`, where `w / 200 = q + 0.5` is exactly representable
as a double (for any realistic `w < 2^52`), and away from a tie the float
rounding error (relative `2^-53`) cannot cross the half-way point. -/
def pyRoundDiv200 (w : Nat) : Nat :=
  if w % 200 < 100 then w / 200
  else if w % 200 = 100 then (if w / 200 % 2 = 0 then w / 200 else w / 200 + 1)
  else w / 200 + 1

/-- Reading time computed by `Command.handle`
(recalculate_reading_times.py:51): `max(1, round(word_count / 200))`. -/
def commandReadingTime (intro : String) (body : List Block) : Nat :=
  max 1 (pyRoundDiv200 (saveWordCount intro body))

/-- A rich-text body of exactly 300 one-letter words. -/
def threeHundredWords : String :=
  String.intercalate " " (List.replicate 300 "a")

/-- A concrete post whose body is a single rich-text block of 300 words. -/
def roundingPost : BlogPost :=
  { id := 1, slug := "rounding", author := "Prabuddh Mathur",
    date := ⟨2025, 1, 1⟩, intro := "",
    body := [Block.richText threeHundredWords],
    tags := [], featured := false, live := true, isPublic := true,
    firstPublishedAt := 0, estimatedReadingTime := 0 }

/-- C5 counterexample: on a post whose content holds 300 words, `save`
stores reading time `max(1, 300 // 200) = 1`, while the batch command
computes `max(1, round(300 / 200)) = max(1, round(1.5)) = 2`, so the two
computations are not equal as functions of the post's text content. -/
theorem command_differs_from_save :
    saveReadingTime roundingPost.intro roundingPost.body = 1 ∧
    commandReadingTime roundingPost.intro roundingPost.body = 2 ∧
    (1 : Nat) ≠ 2 := by
  refine ⟨by decide, by decide, by decide⟩

theorem round_vs_floor (w : Nat) :
    max 1 (pyRoundDiv200 w) = max 1 (w / 200) ↔
      (w < 200 ∨ w % 200 < 100 ∨ (w % 200 = 100 ∧ w / 200 % 2 = 0)) := by
  unfold pyRoundDiv200
  split
  · omega
  · split
    · split <;> omega
    · omega

/-- C5 amended: the batch command computes the same word count as `save`,
but rounds `word_count / 200` half-to-even where `save` floors it; the two
reading times agree exactly when the word count is below 200, or its
remainder modulo 200 is below 100, or the remainder is exactly 100 and the
quotient is even — otherwise the command's value is one larger. -/
theorem command_vs_save_characterization (intro : String) (body : List Block) :
    commandReadingTime intro body = saveReadingTime intro body ↔
      (saveWordCount intro body < 200 ∨
        saveWordCount intro body % 200 < 100 ∨
        (saveWordCount intro body % 200 = 100 ∧
          saveWordCount intro body / 200 % 2 = 0)) := by
  unfold commandReadingTime saveReadingTime
  exact round_vs_floor (saveWordCount intro body)

/-! ### Date-based URLs: `BlogPage.get_date_url` and
`BlogPage.get_url_parts` (src/blog/models.py:276-294) -/

/-- Python `f"{n:04d}"` / `f"{n:02d}"` zero-padding for non-negative `n`. -/
def zeroPad (width n : Nat) : String :=
  String.mk (List.replicate (width - (Nat.repr n).length) '0') ++ Nat.repr n

/-- The date path built by `get_url_parts` (src/blog/models.py:292):
`f"{year:04d}/{month:02d}/{day:02d}/{slug}/"` — note: no leading slash. -/
def datePath (p : BlogPost) : String :=
  zeroPad 4 p.date.year ++ "/" ++ zeroPad 2 p.date.month ++ "/" ++
    zeroPad 2 p.date.day ++ "/" ++ p.slug ++ "/"

/-- Source `BlogPage.get_date_url` (src/blog/models.py:276-278):
`f"/{year:04d}/{month:02d}/{day:02d}/{slug}/"`. -/
def getDateUrl (p : BlogPost) : String :=
  "/" ++ zeroPad 4 p.date.year ++ "/" ++ zeroPad 2 p.date.month ++ "/" ++
    zeroPad 2 p.date.day ++ "/" ++ p.slug ++ "/"

/-- Source `BlogPage.get_url_parts` (src/blog/models.py:280-294).  The result of
`super().get_url_parts(request)` (Wagtail framework code) is passed in as
`superParts : Option (site_id × root_url × page_path)`; the override keeps
the site id and root URL and replaces the page path with the date path. -/
def getUrlParts (superParts : Option (Nat × String × String)) (p : BlogPost) :
    Option (Nat × String × String) :=
  match superParts with
  | none => none
  | some (siteId, rootUrl, _pagePath) => some (siteId, rootUrl, datePath p)

/-- A concrete post dated 2025-10-19 with slug `hello-world`. -/
def datedPost : BlogPost :=
  { id := 2, slug := "hello-world", author := "Prabuddh Mathur",
    date := ⟨2025, 10, 19⟩, intro := "", body := [],
    tags := [], featured := false, live := true, isPublic := true,
    firstPublishedAt := 0, estimatedReadingTime := 1 }

/-- C2: the page-path component that `get_url_parts` returns has no leading
slash, so the resolved path of a post dated 2025-10-19 with slug
`hello-world` is `2025/10/19/hello-world/`, not the claimed
`/2025/10/19/hello-world/` (which only `get_date_url` produces); a consumer
that joins the site root URL with this path gets a malformed URL, contrary
to the method's own docstring `/YYYY/MM/DD/slug/`. -/
theorem getUrlParts_path_lacks_leading_slash :
    getUrlParts (some (1, "http://localhost", "/blog/hello-world/")) datedPost
      = some (1, "http://localhost", "2025/10/19/hello-world/") ∧
    getDateUrl datedPost = "/2025/10/19/hello-world/" ∧
    ("2025/10/19/hello-world/" : String) ≠ "/2025/10/19/hello-world/" := by
  refine ⟨by decide, by decide, by decide⟩

/-- C10: for every BlogPost whose `get_url_parts` returns a non-`None`
result, `get_date_url()` equals `"/"` concatenated with the page-path
component of that result: both operations are built from the same date and
slug formatting. -/
theorem getDateUrl_eq_slash_append_path (p : BlogPost)
    (superParts : Option (Nat × String × String))
    (parts : Nat × String × String)
    (h : getUrlParts superParts p = some parts) :
    getDateUrl p = "/" ++ parts.2.2 := by
  match superParts with
  | none => simp [getUrlParts] at h
  | some (siteId, rootUrl, pagePath) =>
    simp only [getUrlParts] at h
    cases h
    simp [getDateUrl, datePath, String.append_assoc]

theorem getDateUrl_witness :
    getDateUrl datedPost = "/" ++ "2025/10/19/hello-world/" :=
  getDateUrl_eq_slash_append_path datedPost
    (some (1, "http://localhost", "/blog/hello-world/"))
    (1, "http://localhost", "2025/10/19/hello-world/")
    (by decide)

/-! ### Related posts: `BlogPage.get_context` (src/blog/models.py:343-360)

`BlogPage.objects.live().public().exclude(id=self.id)
  .filter(tags__in=self.tags.all()).distinct()
  .order_by('-first_published_at')[:3]` -/

/-- Wagtail's `.live().public()` queryset filter. -/
def livePublic (db : List BlogPost) : List BlogPost :=
  db.filter fun p => p.live && p.isPublic

/-- Django `filter(tags__in=self.tags.all())`: the row for post `p` matches when
`p` carries at least one of `self`'s tags. -/
def sharesTag (self p : BlogPost) : Bool :=
  p.tags.any fun t => self.tags.contains t

/-- The comparison of `order_by('-first_published_at')`: newest first. -/
def pubDescLe (a b : BlogPost) : Bool :=
  decide (b.firstPublishedAt ≤ a.firstPublishedAt)

/-- Django `order_by('-first_published_at')`. -/
def sortByPubDesc (l : List BlogPost) : List BlogPost :=
  l.mergeSort pubDescLe

/-- The related-posts query of `BlogPage.get_context`
(src/blog/models.py:350-354). -/
def relatedPosts (db : List BlogPost) (self : BlogPost) : List BlogPost :=
  (sortByPubDesc
    ((((livePublic db).filter fun p => p.id != self.id).filter
      fun p => sharesTag self p).dedup)).take 3

theorem sortByPubDesc_pairwise (l : List BlogPost) :
    (sortByPubDesc l).Pairwise
      fun a b => b.firstPublishedAt ≤ a.firstPublishedAt := by
  have h := @List.sorted_mergeSort BlogPost pubDescLe
    (fun a b c h1 h2 => by simp [pubDescLe] at *; omega)
    (fun a b => by simp [pubDescLe]; omega) l
  exact h.imp fun hab => by simpa [pubDescLe] using hab

theorem mem_sortByPubDesc {l : List BlogPost} {p : BlogPost} :
    p ∈ sortByPubDesc l ↔ p ∈ l := List.mem_mergeSort

/-- C4: for every database of posts and every post, the related-posts
lookup returns only live, publicly-visible posts that carry a shared tag
and are not the post itself, never contains the post itself, contains no
duplicates, is ordered by publish time descending, and has at most 3
elements. -/
theorem relatedPosts_correct (db : List BlogPost) (self : BlogPost) :
    (∀ p ∈ relatedPosts db self,
      p.live = true ∧ p.isPublic = true ∧ p.id ≠ self.id ∧
        sharesTag self p = true) ∧
    self ∉ relatedPosts db self ∧
    (relatedPosts db self).Nodup ∧
    (relatedPosts db self).Pairwise
      (fun a b => b.firstPublishedAt ≤ a.firstPublishedAt) ∧
    (relatedPosts db self).length ≤ 3 := by
  have hmem : ∀ p ∈ relatedPosts db self,
      p.live = true ∧ p.isPublic = true ∧ p.id ≠ self.id ∧
        sharesTag self p = true := by
    intro p hp
    have hp' := List.mem_of_mem_take hp
    rw [mem_sortByPubDesc, List.mem_dedup] at hp'
    simp only [List.mem_filter, livePublic, Bool.and_eq_true, bne_iff_ne,
      ne_eq] at hp'
    obtain ⟨⟨⟨-, hlive, hpub⟩, hid⟩, hshares⟩ := hp'
    exact ⟨hlive, hpub, hid, hshares⟩
  refine ⟨hmem, ?_, ?_, ?_, ?_⟩
  · intro hself
    exact (hmem self hself).2.2.1 rfl
  · have hnd : ((((livePublic db).filter fun p => p.id != self.id).filter
        fun p => sharesTag self p).dedup).Nodup := List.nodup_dedup _
    have hnd' := ((List.mergeSort_perm _ pubDescLe).nodup_iff).mpr hnd
    exact hnd'.sublist (List.take_sublist 3 _)
  · exact (sortByPubDesc_pairwise _).sublist (List.take_sublist 3 _)
  · exact List.length_take_le 3 _

/-! ### Cache invalidation on save (src/blog/models.py:209-228, 249-268,
321-328, 343-360)

The Django cache is modelled as an association list from string keys to
cached post lists; `cache.set` prepends (overriding), `cache.get` returns
the first binding, `cache.delete` removes all bindings of the key. -/

/-- The cache state: string keys bound to cached lists of posts. -/
def Cache : Type := List (String × List BlogPost)

/-- Django `cache.get(key)`. -/
def cacheGet (key : String) : Cache → Option (List BlogPost)
  | [] => none
  | (k, v) :: rest => if k = key then some v else cacheGet key rest

/-- Django `cache.set(key, value, timeout)` (the 900-second TTL is not modelled;
staleness, not expiry, is at issue here). -/
def cacheSet (key : String) (v : List BlogPost) (c : Cache) : Cache :=
  (key, v) :: c

/-- Django `cache.delete(key)`. -/
def cacheDelete (key : String) (c : Cache) : Cache :=
  c.filter fun kv => kv.1 != key

/-- The key `get_recent_posts` reads and writes
(src/blog/models.py:220): `f'blog_recent_posts_{limit}'`. -/
def recentPostsKey (limit : Nat) : String :=
  "blog_recent_posts_" ++ Nat.repr limit

/-- The key `get_featured_posts` reads and writes
(src/blog/models.py:260): `f'blog_featured_posts_{limit}'`. -/
def featuredPostsKey (limit : Nat) : String :=
  "blog_featured_posts_" ++ Nat.repr limit

/-- The key the related-posts lookup reads and writes
(src/blog/models.py:346): `f'blog_related_posts_{self.id}'`. -/
def relatedPostsKey (id : Nat) : String :=
  "blog_related_posts_" ++ Nat.repr id

/-- The cache deletions `BlogPage.save` performs
(src/blog/models.py:322-328): keys `f'blog_related_posts_{self.id}'`,
`'blog_posts_by_tag'` and `'blog_recent_posts'`, in that order. -/
def saveClearCaches (id : Nat) (c : Cache) : Cache :=
  cacheDelete "blog_recent_posts"
    (cacheDelete "blog_posts_by_tag" (cacheDelete (relatedPostsKey id) c))

/-- Source `BlogPage.get_recent_posts` (src/blog/models.py:209-228): the fresh
query is `live().public().order_by('-first_published_at')[:limit]`. -/
def computeRecentPosts (db : List BlogPost) (limit : Nat) : List BlogPost :=
  (sortByPubDesc (livePublic db)).take limit

/-- Source `BlogPage.get_recent_posts`: read-through cache on `recentPostsKey`. -/
def getRecentPosts (db : List BlogPost) (limit : Nat) (c : Cache) :
    List BlogPost × Cache :=
  match cacheGet (recentPostsKey limit) c with
  | some posts => (posts, c)
  | none =>
    let posts := computeRecentPosts db limit
    (posts, cacheSet (recentPostsKey limit) posts c)

/-- Source `BlogPage.get_featured_posts` (src/blog/models.py:249-268): the fresh
query filters `featured=True`. -/
def computeFeaturedPosts (db : List BlogPost) (limit : Nat) : List BlogPost :=
  (sortByPubDesc ((livePublic db).filter fun p => p.featured)).take limit

/-- Source `BlogPage.get_featured_posts`: read-through cache on
`featuredPostsKey`. -/
def getFeaturedPosts (db : List BlogPost) (limit : Nat) (c : Cache) :
    List BlogPost × Cache :=
  match cacheGet (featuredPostsKey limit) c with
  | some posts => (posts, c)
  | none =>
    let posts := computeFeaturedPosts db limit
    (posts, cacheSet (featuredPostsKey limit) posts c)

/-- The related-posts lookup of `BlogPage.get_context`
(src/blog/models.py:345-358): read-through cache on `relatedPostsKey`. -/
def getRelatedPosts (db : List BlogPost) (self : BlogPost) (c : Cache) :
    List BlogPost × Cache :=
  match cacheGet (relatedPostsKey self.id) c with
  | some posts => (posts, c)
  | none =>
    let posts := relatedPosts db self
    (posts, cacheSet (relatedPostsKey self.id) posts c)

theorem cacheGet_delete_self (key : String) (c : Cache) :
    cacheGet key (cacheDelete key c) = none := by
  unfold cacheDelete
  induction c with
  | nil => rfl
  | cons kv rest ih =>
    obtain ⟨k, v⟩ := kv
    by_cases hk : k = key
    · rw [List.filter_cons_of_neg (by simp [hk])]
      exact ih
    · rw [List.filter_cons_of_pos (by simp [hk])]
      simpa [cacheGet, hk] using ih

theorem cacheGet_delete_ne (key key' : String) (c : Cache)
    (h : key ≠ key') :
    cacheGet key (cacheDelete key' c) = cacheGet key c := by
  unfold cacheDelete
  induction c with
  | nil => rfl
  | cons kv rest ih =>
    obtain ⟨k, v⟩ := kv
    by_cases hk : k = key'
    · rw [List.filter_cons_of_neg (by simp [hk]), ih]
      have hne : ¬k = key := by
        rw [hk]
        exact fun he => h he.symm
      simp [cacheGet, hne]
    · rw [List.filter_cons_of_pos (by simp [hk])]
      by_cases hk2 : k = key
      · simp [cacheGet, hk2]
      · simpa [cacheGet, hk2] using ih

theorem recentPostsKey_ne_byTag (limit : Nat) :
    recentPostsKey limit ≠ "blog_posts_by_tag" := by
  intro h
  have hd := congrArg String.data h
  rw [recentPostsKey, String.data_append] at hd
  simp [String.data] at hd

theorem recentPostsKey_ne_bare (limit : Nat) :
    recentPostsKey limit ≠ "blog_recent_posts" := by
  intro h
  have hd := congrArg String.data h
  rw [recentPostsKey, String.data_append] at hd
  simp [String.data] at hd

theorem recentPostsKey_ne_related (limit id : Nat) :
    recentPostsKey limit ≠ relatedPostsKey id := by
  intro h
  have hd := congrArg String.data h
  rw [recentPostsKey, relatedPostsKey, String.data_append,
    String.data_append] at hd
  simp [String.data] at hd

theorem featuredPostsKey_ne_byTag (limit : Nat) :
    featuredPostsKey limit ≠ "blog_posts_by_tag" := by
  intro h
  have hd := congrArg String.data h
  rw [featuredPostsKey, String.data_append] at hd
  simp [String.data] at hd

theorem featuredPostsKey_ne_bare (limit : Nat) :
    featuredPostsKey limit ≠ "blog_recent_posts" := by
  intro h
  have hd := congrArg String.data h
  rw [featuredPostsKey, String.data_append] at hd
  simp [String.data] at hd

theorem featuredPostsKey_ne_related (limit id : Nat) :
    featuredPostsKey limit ≠ relatedPostsKey id := by
  intro h
  have hd := congrArg String.data h
  rw [featuredPostsKey, relatedPostsKey, String.data_append,
    String.data_append] at hd
  simp [String.data] at hd

/-- A concrete stale post used to populate the cache before a save. -/
def stalePost : BlogPost :=
  { id := 9, slug := "stale", author := "Prabuddh Mathur",
    date := ⟨2024, 1, 1⟩, intro := "", body := [],
    tags := [], featured := true, live := true, isPublic := true,
    firstPublishedAt := 5, estimatedReadingTime := 1 }

/-- C3 counterexample: a save does not invalidate the entries the
recent-posts and featured-posts lookups read.  With
`blog_recent_posts_5` and `blog_featured_posts_3` cached before the save
of a post with id 7, both lookups still return the pre-save cached value
afterwards (here against an empty post table, whose fresh result would be
`[]`): `save` deletes the keys `blog_related_posts_7`, `blog_posts_by_tag`
and `blog_recent_posts`, none of which is a key those lookups read. -/
theorem save_leaves_recent_and_featured_cached :
    (getRecentPosts []
        5 (saveClearCaches 7 [(recentPostsKey 5, [stalePost])])).1
      = [stalePost] ∧
    (getFeaturedPosts []
        3 (saveClearCaches 7 [(featuredPostsKey 3, [stalePost])])).1
      = [stalePost] ∧
    computeRecentPosts [] 5 = [] ∧
    computeFeaturedPosts [] 3 = [] ∧
    ([stalePost] : List BlogPost) ≠ [] := by
  refine ⟨by decide, by decide, ?_, ?_, by decide⟩
  · simp [computeRecentPosts, sortByPubDesc, livePublic]
  · simp [computeFeaturedPosts, sortByPubDesc, livePublic]

/-- C3 amended: a save of a post deletes the cache entry the related-posts
lookup for that post reads, so that lookup cannot observe a pre-save cached
value; but the entries the recent-posts and featured-posts lookups read
(`blog_recent_posts_{limit}`, `blog_featured_posts_{limit}`) are untouched
— the deleted keys `blog_recent_posts` and `blog_posts_by_tag` are not keys
any lookup reads — so those two lookups may still observe pre-save cached
values. -/
theorem saveClearCaches_effect (c : Cache) (id limit : Nat) :
    cacheGet (recentPostsKey limit) (saveClearCaches id c)
      = cacheGet (recentPostsKey limit) c ∧
    cacheGet (featuredPostsKey limit) (saveClearCaches id c)
      = cacheGet (featuredPostsKey limit) c ∧
    cacheGet (relatedPostsKey id) (saveClearCaches id c) = none := by
  unfold saveClearCaches
  refine ⟨?_, ?_, ?_⟩
  · rw [cacheGet_delete_ne _ _ _ (recentPostsKey_ne_bare limit),
      cacheGet_delete_ne _ _ _ (recentPostsKey_ne_byTag limit),
      cacheGet_delete_ne _ _ _ (recentPostsKey_ne_related limit id)]
  · rw [cacheGet_delete_ne _ _ _ (featuredPostsKey_ne_bare limit),
      cacheGet_delete_ne _ _ _ (featuredPostsKey_ne_byTag limit),
      cacheGet_delete_ne _ _ _ (featuredPostsKey_ne_related limit id)]
  · rw [cacheGet_delete_ne, cacheGet_delete_ne, cacheGet_delete_self]
    · intro h
      have hd := congrArg String.data h
      rw [relatedPostsKey, String.data_append] at hd
      simp [String.data] at hd
    · intro h
      have hd := congrArg String.data h
      rw [relatedPostsKey, String.data_append] at hd
      simp [String.data] at hd

/-! ### Pagination (src/blog/views.py:29-32 and the other listing views)

Every listing view builds a `django.core.paginator.Paginator` with default
options (`orphans=0`, `allow_empty_first_page=True`) and calls
`paginator.get_page(page_number)`, where `page_number` comes from the
`page` query parameter (a string) or defaults to `1`.  The definitions
below translate Django's `Paginator.num_pages`, `validate_number`,
`get_page` and `page` for those defaults; the request argument is either
convertible to an integer (`int(x)` succeeds) or not. -/

/-- A paginator over a list of posts with a fixed page size. -/
structure Paginator where
  objectList : List BlogPost
  perPage : Nat

/-- The requested page number: `int(number)` either succeeds or raises
`(TypeError, ValueError)`. -/
inductive PageArg where
  | int (n : Int)
  | notInt

/-- Django `Paginator.num_pages` with `orphans=0` and
`allow_empty_first_page=True`: `ceil(max(1, count) / per_page)`. -/
def numPages (pg : Paginator) : Nat :=
  (max 1 pg.objectList.length + pg.perPage - 1) / pg.perPage

/-- The outcomes of Django `Paginator.validate_number`. -/
inductive ValidateResult where
  | ok (n : Int)
  | notAnInteger
  | emptyPage

/-- Django `Paginator.validate_number`: non-integers raise
`PageNotAnInteger`; numbers below 1 or beyond `num_pages` raise
`EmptyPage`, except page 1 of an empty paginator when
`allow_empty_first_page` (always true here). -/
def validateNumber (pg : Paginator) (arg : PageArg) : ValidateResult :=
  match arg with
  | PageArg.notInt => ValidateResult.notAnInteger
  | PageArg.int n =>
    if n < 1 then ValidateResult.emptyPage
    else if n > (numPages pg : Int) then
      (if n = 1 then ValidateResult.ok n else ValidateResult.emptyPage)
    else ValidateResult.ok n

/-- Django `Paginator.get_page`: `PageNotAnInteger` falls back to page 1,
`EmptyPage` falls back to the last page (`num_pages`). -/
def getPageNumber (pg : Paginator) (arg : PageArg) : Nat :=
  match validateNumber pg arg with
  | ValidateResult.ok n => n.toNat
  | ValidateResult.notAnInteger => 1
  | ValidateResult.emptyPage => numPages pg

/-- Django `Paginator.page(number)` combined with `get_page`'s clamping:
the slice `object_list[(number-1)*per_page : number*per_page]`. -/
def getPagePosts (pg : Paginator) (arg : PageArg) : List BlogPost :=
  (pg.objectList.drop ((getPageNumber pg arg - 1) * pg.perPage)).take
    pg.perPage

/-- The page the claim says an invalid integer request clamps to: the
nearest valid page, `min(max(n, 1), num_pages)`. -/
def claimedNearestPage (pg : Paginator) (n : Int) : Nat :=
  (max 1 (min n (numPages pg : Int))).toNat

/-- A two-page paginator: 24 posts, 12 per page. -/
def twoPagePaginator : Paginator :=
  { objectList := List.replicate 24 stalePost, perPage := 12 }

/-- C6 counterexample: requesting page 0 of a two-page listing does not
return the nearest valid page.  The nearest valid page to a request for
page 0 is the first page, but `get_page` maps every `EmptyPage` error —
including page 0 and negative pages — to the **last** page. -/
theorem page_zero_not_nearest :
    getPageNumber twoPagePaginator (PageArg.int 0) = 2 ∧
    claimedNearestPage twoPagePaginator 0 = 1 ∧
    (2 : Nat) ≠ 1 := by
  refine ⟨by decide, by decide, by decide⟩

/-- C6 amended: pagination never errors and always lands on a valid page,
but the clamping is not to the nearest page: a non-integer request returns
the first page, while every out-of-range integer request — below 1 (page 0,
negative pages) as well as beyond the last page — returns the last page;
in-range requests are honoured as given. -/
theorem getPageNumber_characterization (posts : List BlogPost)
    (perPage : Nat) (hpp : 1 ≤ perPage) (n : Int) :
    getPageNumber ⟨posts, perPage⟩ PageArg.notInt = 1 ∧
    ((n < 1 ∨ (numPages ⟨posts, perPage⟩ : Int) < n) →
      getPageNumber ⟨posts, perPage⟩ (PageArg.int n)
        = numPages ⟨posts, perPage⟩) ∧
    (1 ≤ n → n ≤ (numPages ⟨posts, perPage⟩ : Int) →
      getPageNumber ⟨posts, perPage⟩ (PageArg.int n) = n.toNat) ∧
    1 ≤ getPageNumber ⟨posts, perPage⟩ (PageArg.int n) ∧
    getPageNumber ⟨posts, perPage⟩ (PageArg.int n)
      ≤ numPages ⟨posts, perPage⟩ := by
  have hnp : 1 ≤ numPages ⟨posts, perPage⟩ := by
    show 1 ≤ (max 1 posts.length + perPage - 1) / perPage
    rw [Nat.le_div_iff_mul_le hpp]
    have h1 : 1 ≤ max 1 posts.length := le_max_left 1 posts.length
    omega
  have hni : getPageNumber ⟨posts, perPage⟩ PageArg.notInt = 1 := by
    simp [getPageNumber, validateNumber]
  by_cases hlt : n < 1
  · have e : getPageNumber ⟨posts, perPage⟩ (PageArg.int n)
        = numPages ⟨posts, perPage⟩ := by
      simp [getPageNumber, validateNumber, hlt]
    refine ⟨hni, fun _ => e, fun h1 _ => absurd h1 (by omega),
      by rw [e]; exact hnp, by rw [e]⟩
  · by_cases hgt : n > (numPages ⟨posts, perPage⟩ : Int)
    · have hne : ¬n = 1 := by omega
      have e : getPageNumber ⟨posts, perPage⟩ (PageArg.int n)
          = numPages ⟨posts, perPage⟩ := by
        simp [getPageNumber, validateNumber, hlt, hgt, hne]
      refine ⟨hni, fun _ => e, fun _ h2 => absurd h2 (by omega),
        by rw [e]; exact hnp, by rw [e]⟩
    · have e : getPageNumber ⟨posts, perPage⟩ (PageArg.int n)
          = n.toNat := by
        simp [getPageNumber, validateNumber, hlt, hgt]
      refine ⟨hni, fun hbad => ?_, fun _ _ => e,
        by rw [e]; omega, by rw [e]; omega⟩
      rcases hbad with hbad | hbad
      · exact absurd hbad hlt
      · exact absurd hbad hgt

theorem getPageNumber_characterization_witness :
    1 ≤ 12 ∧
    (getPageNumber ⟨List.replicate 24 stalePost, 12⟩ PageArg.notInt = 1 ∧
    ((0 : Int) < 1 ∨
        (numPages ⟨List.replicate 24 stalePost, 12⟩ : Int) < 0 →
      getPageNumber ⟨List.replicate 24 stalePost, 12⟩ (PageArg.int 0)
        = numPages ⟨List.replicate 24 stalePost, 12⟩) ∧
    (1 ≤ (0 : Int) →
        (0 : Int) ≤ (numPages ⟨List.replicate 24 stalePost, 12⟩ : Int) →
      getPageNumber ⟨List.replicate 24 stalePost, 12⟩ (PageArg.int 0)
        = Int.toNat 0) ∧
    1 ≤ getPageNumber ⟨List.replicate 24 stalePost, 12⟩ (PageArg.int 0) ∧
    getPageNumber ⟨List.replicate 24 stalePost, 12⟩ (PageArg.int 0)
      ≤ numPages ⟨List.replicate 24 stalePost, 12⟩) :=
  ⟨by decide,
    getPageNumber_characterization (List.replicate 24 stalePost) 12
      (by decide) 0⟩

/-! ### HomePage validation (src/home/models.py, src/home/tests.py)

`HomePage` declares `number_of_featured_posts` (src/home/models.py:477-480)
and `number_of_recent_posts` (src/home/models.py:492-495) as plain integer
fields, and `hero_cta_text`/`hero_cta_link` (src/home/models.py:404-412) as
blank-able char/URL fields, but `src/home/models.py` contains no `clean`
method: the count-range and hero-CTA validation that
`src/home/tests.py:129-188` exercises is absent from the sources, so it is
modelled from the spec below. -/

/-- Modelled from the spec: `HomePage.clean`'s count-range validation is
missing from `src/home/models.py` (only `src/home/tests.py:129-175`
exercises it).  Per the spec's validation table, the featured-post count
must lie in 0–20 and the recent-post count in 0–50; each violation adds a
field-keyed error. -/
def homePageCountErrors (featured recent : Int) : List String :=
  (if featured < 0 ∨ 20 < featured then ["number_of_featured_posts"]
    else []) ++
  (if recent < 0 ∨ 50 < recent then ["number_of_recent_posts"] else [])

/-- C7: HomePage validation of the two post-count fields fails exactly when
the featured-post count is outside 0–20 or the recent-post count is outside
0–50, and passes (with respect to these two fields) when both are within
range. -/
theorem homePageCounts_valid_iff (featured recent : Int) :
    homePageCountErrors featured recent = [] ↔
      (0 ≤ featured ∧ featured ≤ 20 ∧ 0 ≤ recent ∧ recent ≤ 50) := by
  unfold homePageCountErrors
  split
  · split <;> simp <;> omega
  · split
    · simp
      omega
    · simp
      omega

/-! ### Hero CTA validation: `BaseHeroBlock.clean`
(src/core/models.py:245-270) -/

/-- Source `BaseHeroBlock.clean`: the three checks, in source order.  Python
truthiness of a string is non-emptiness; `not s.strip()` holds when the
stripped string is empty. -/
def heroBlockCleanErrors (ctaText ctaLink : String) : List String :=
  (if ctaLink ≠ "" ∧ ctaText = "" then ["cta_text"] else []) ++
  (if ctaText ≠ "" ∧ pyStrip ctaText = "" then ["cta_text"] else []) ++
  (if ctaText ≠ "" ∧ ctaLink = "" then ["cta_link"] else [])

/-- Modelled from the spec: `HomePage.clean`'s hero-CTA validation is
missing from `src/home/models.py` (only `src/home/tests.py:177-188`
exercises it).  Per the spec's hero CTA rules — text and link both present
or both absent, text non-blank when present — with errors keyed by the
HomePage field names. -/
def homePageHeroErrors (ctaText ctaLink : String) : List String :=
  (if ctaLink ≠ "" ∧ pyStrip ctaText = "" then ["hero_cta_text"]
    else []) ++
  (if ctaText ≠ "" ∧ ctaLink = "" then ["hero_cta_link"] else [])

theorem pyStrip_empty : pyStrip "" = "" := rfl

/-- C8: for every hero CTA text/link pair, on the hero content block and on
the HomePage hero fields alike, validation passes exactly when both are set
with non-blank text or both are absent — so it fails when the text is set
and the link is empty, and when the link is set and the text is empty or
whitespace-only. -/
theorem heroCta_valid_iff (ctaText ctaLink : String) :
    (heroBlockCleanErrors ctaText ctaLink = [] ↔
      homePageHeroErrors ctaText ctaLink = []) ∧
    (heroBlockCleanErrors ctaText ctaLink = [] ↔
      ((pyStrip ctaText ≠ "" ∧ ctaLink ≠ "") ∨
        (ctaText = "" ∧ ctaLink = ""))) := by
  by_cases ht : ctaText = ""
  · have hs : pyStrip ctaText = "" := by rw [ht]; rfl
    by_cases hl : ctaLink = "" <;>
      simp [heroBlockCleanErrors, homePageHeroErrors, ht, hs, hl,
        pyStrip_empty]
  · by_cases hs : pyStrip ctaText = "" <;>
      by_cases hl : ctaLink = "" <;>
        simp [heroBlockCleanErrors, homePageHeroErrors, ht, hs, hl]

/-! ### Author archive: `blog_author_archive` (src/blog/views.py:55-106)

The view derives `author_name = author_slug.replace('-', ' ').title()`,
filters live public posts with `author__iexact=author_name` ordered by
`-date`; if that queryset is empty it looks for any live public post with
`author__icontains=author_slug.replace('-', ' ')` (first under the model's
default ordering `['-first_published_at', '-date']`), and on a hit re-runs
the listing with `author=<that post's author>` (exact, case-sensitive). -/

/-- Python `author_slug.replace('-', ' ').title()` (src/blog/views.py:63). -/
def authorNameFromSlug (slug : String) : String :=
  pyTitle (replaceDashes slug)

/-- Descending lexicographic comparison of dates, for
`order_by('-date')`. -/
def dateLexLe (a b : PostDate) : Bool :=
  decide (a.year < b.year) ||
    (a.year == b.year &&
      (decide (a.month < b.month) ||
        (a.month == b.month && decide (a.day ≤ b.day))))

/-- Django `order_by('-date')`: newest date first. -/
def sortByDateDesc (l : List BlogPost) : List BlogPost :=
  l.mergeSort fun a b => dateLexLe b.date a.date

/-- Source `BlogPage.Meta.ordering = ['-first_published_at', '-date']`
(src/blog/models.py:203), which governs `.first()` on an un-ordered
queryset. -/
def metaLe (a b : BlogPost) : Bool :=
  decide (b.firstPublishedAt < a.firstPublishedAt) ||
    (b.firstPublishedAt == a.firstPublishedAt && dateLexLe b.date a.date)

/-- The model's default ordering. -/
def metaSort (l : List BlogPost) : List BlogPost :=
  l.mergeSort metaLe

/-- The exact-match queryset
`live().public().filter(author__iexact=author_name)`
(src/blog/views.py:66-68), before ordering. -/
def exactList (db : List BlogPost) (slug : String) : List BlogPost :=
  (livePublic db).filter fun p => iexact p.author (authorNameFromSlug slug)

/-- The fallback probe
`live().public().filter(author__icontains=author_slug.replace('-', ' ')).first()`
(src/blog/views.py:73-75). -/
def fallbackSample (db : List BlogPost) (slug : String) : Option BlogPost :=
  (metaSort ((livePublic db).filter
    fun p => icontains p.author (replaceDashes slug))).head?

/-- The listing for a fixed author name:
`live().public().filter(author=author_name)` (src/blog/views.py:78-80),
before ordering. -/
def authorList (db : List BlogPost) (name : String) : List BlogPost :=
  (livePublic db).filter fun p => p.author == name

/-- View `blog_author_archive`'s resolved author name and post list
(src/blog/views.py:62-80). -/
def blogAuthorArchivePosts (db : List BlogPost) (slug : String) :
    String × List BlogPost :=
  if (sortByDateDesc (exactList db slug)).isEmpty then
    match fallbackSample db slug with
    | some sample =>
      (sample.author, sortByDateDesc (authorList db sample.author))
    | none => (authorNameFromSlug slug, sortByDateDesc (exactList db slug))
  else (authorNameFromSlug slug, sortByDateDesc (exactList db slug))

theorem sortByDateDesc_eq_nil_iff (l : List BlogPost) :
    sortByDateDesc l = [] ↔ l = [] := by
  constructor
  · intro h
    have hp := List.mergeSort_perm l fun a b : BlogPost => dateLexLe b.date a.date
    rw [sortByDateDesc] at h
    rw [h] at hp
    exact hp.symm.eq_nil
  · intro h
    rw [h]
    simp [sortByDateDesc]

theorem mem_sortByDateDesc {l : List BlogPost} {p : BlogPost} :
    p ∈ sortByDateDesc l ↔ p ∈ l := List.mem_mergeSort

/-- C9: the author-archive lookup first matches the author name derived
from the slug exactly (case-insensitively); only when that yields no result
does it fall back to a case-insensitive substring match, and when the
fallback finds a post the listing is exactly the (date-ordered) posts of
that matched author — in particular it contains every live, public post of
that author in the database. -/
theorem blogAuthorArchive_correct (db : List BlogPost) (slug : String) :
    (exactList db slug ≠ [] →
      blogAuthorArchivePosts db slug
        = (authorNameFromSlug slug, sortByDateDesc (exactList db slug))) ∧
    (∀ sample, exactList db slug = [] →
      fallbackSample db slug = some sample →
      (blogAuthorArchivePosts db slug).2
          = sortByDateDesc (authorList db sample.author) ∧
      ∀ q ∈ db, q.live = true → q.isPublic = true →
        q.author = sample.author →
        q ∈ (blogAuthorArchivePosts db slug).2) ∧
    (exactList db slug = [] → fallbackSample db slug = none →
      (blogAuthorArchivePosts db slug).2 = []) := by
  refine ⟨?_, ?_, ?_⟩
  · intro hne
    rw [blogAuthorArchivePosts, if_neg]
    rw [List.isEmpty_iff, sortByDateDesc_eq_nil_iff]
    exact hne
  · intro sample hex hs
    have hcond : (sortByDateDesc (exactList db slug)).isEmpty = true := by
      rw [List.isEmpty_iff, sortByDateDesc_eq_nil_iff]
      exact hex
    rw [blogAuthorArchivePosts, if_pos hcond, hs]
    refine ⟨rfl, ?_⟩
    intro q hq hlive hpub hauthor
    rw [mem_sortByDateDesc]
    simp only [authorList, livePublic, List.mem_filter, Bool.and_eq_true,
      beq_iff_eq]
    exact ⟨⟨hq, hlive, hpub⟩, hauthor⟩
  · intro hex hs
    have hcond : (sortByDateDesc (exactList db slug)).isEmpty = true := by
      rw [List.isEmpty_iff, sortByDateDesc_eq_nil_iff]
      exact hex
    rw [blogAuthorArchivePosts, if_pos hcond, hs]
    rw [sortByDateDesc_eq_nil_iff]
    exact hex

/-- A live public post by "John Doe". -/
def johnPost : BlogPost :=
  { id := 3, slug := "first-post", author := "John Doe",
    date := ⟨2025, 5, 1⟩, intro := "", body := [],
    tags := [], featured := false, live := true, isPublic := true,
    firstPublishedAt := 10, estimatedReadingTime := 1 }

theorem fallbackSample_john :
    fallbackSample [johnPost] "doe" = some johnPost := by
  have hfl : (livePublic [johnPost]).filter
      (fun p => icontains p.author (replaceDashes "doe")) = [johnPost] := by
    decide
  rw [fallbackSample, hfl, metaSort, List.mergeSort_singleton]
  rfl

theorem blogAuthorArchive_correct_witness :
    exactList [johnPost] "doe" = [] ∧
    fallbackSample [johnPost] "doe" = some johnPost ∧
    (blogAuthorArchivePosts [johnPost] "doe").2
      = sortByDateDesc (authorList [johnPost] johnPost.author) ∧
    johnPost ∈ (blogAuthorArchivePosts [johnPost] "doe").2 := by
  have hex : exactList [johnPost] "doe" = [] := by decide
  have h := (blogAuthorArchive_correct [johnPost] "doe").2.1 johnPost hex
    fallbackSample_john
  exact ⟨hex, fallbackSample_john, h.1,
    h.2 johnPost (by simp) rfl rfl rfl⟩

end PrabuddhMe
